import Mathlib

/-!
# Verification of the email-parser Azure Function

Shallow embedding of `src/azure-functions/email-parser-ai/function_app.py`:
the `ReservationResponse` pydantic model, the `parse_email` request handler
and the `health` handler.  Python-level dynamic values are modelled by a
`Json` inductive; Python truthiness, the `in` containment operator on
dynamic values, and pydantic v2 lax-mode field validation are embedded
explicitly.  The single network call to Azure OpenAI (client construction,
`chat.completions.create`, and `json.loads` of the returned text) is
abstracted as an oracle value of type `Except String (Except String Json)`:
the outer `Except` is any exception raised while calling the provider, the
inner one is the outcome of `json.loads` on the reply text.
-/

set_option autoImplicit false

namespace EmailParser

/-- Decoded JSON values as produced by Python's `json.loads` (numbers are
restricted to integers; no claim touches fractional numbers). -/
inductive Json where
  | null
  | bool (b : Bool)
  | num (n : Int)
  | str (s : String)
  | arr (elems : List Json)
  | obj (fields : List (String × Json))

/-- Python's name for the runtime type of a value, as it appears in
`TypeError` messages. -/
def Json.pyType : Json → String
  | .null => "NoneType"
  | .bool _ => "bool"
  | .num _ => "int"
  | .str _ => "str"
  | .arr _ => "list"
  | .obj _ => "dict"

/-- Python truthiness (`bool(x)`) of a decoded JSON value. -/
def Json.truthy : Json → Bool
  | .null => false
  | .bool b => b
  | .num n => n != 0
  | .str s => !s.isEmpty
  | .arr elems => !elems.isEmpty
  | .obj fields => !fields.isEmpty

/-- Python `dict.get(k)` on a decoded JSON object: the value stored at key `k`.
`json.loads` keeps the last occurrence of a duplicated key, so lookup
prefers later entries. -/
def lookupJ (fields : List (String × Json)) (k : String) : Option Json :=
  match fields with
  | [] => none
  | (k', v) :: rest =>
    match lookupJ rest k with
    | some v' => some v'
    | none => if k' = k then some v else none

/-- Whether `pre` is a prefix of `l` (character lists). -/
def listPrefixEq : List Char → List Char → Bool
  | [], _ => true
  | _ :: _, [] => false
  | a :: as, b :: bs => a == b && listPrefixEq as bs

/-- Whether `needle` occurs as a contiguous sublist of `hay`. -/
def listContainsSub (needle : List Char) : List Char → Bool
  | [] => listPrefixEq needle []
  | c :: rest => listPrefixEq needle (c :: rest) || listContainsSub needle rest

/-- Python's `needle in hay` for two strings: case-sensitive substring
containment. -/
def strContains (hay needle : String) : Bool :=
  listContainsSub needle.toList hay.toList

/-- Python exceptions that can escape or be routed by the handler's
`try`/`except` blocks. -/
inductive PyErr where
  | typeError (msg : String)
  | attributeError (msg : String)

/-- Python's `needle in x` where `needle` is a string and `x` is a decoded
JSON value: substring test on strings, membership on lists, key membership
on dicts, and a `TypeError` on non-iterable values. -/
def pyContains (needle : String) : Json → Except PyErr Bool
  | .str s => .ok (strContains s needle)
  | .arr elems => .ok (elems.any (fun e => match e with | .str s => s = needle | _ => false))
  | .obj fields => .ok (fields.any (fun p => p.1 = needle))
  | v => .error (.typeError ("argument of type " ++ v.pyType ++ " is not iterable"))

/-! ## The pydantic model `ReservationResponse` (function_app.py lines 12-21) -/

/-- The validated record behind the pydantic `ReservationResponse` model:
`is_reservation` is required, every other field is optional with default
`None`. -/
structure ReservationResponse where
  is_reservation : Bool
  date : Option String := none
  start_time : Option String := none
  end_time : Option String := none
  court : Option String := none
  organizer : Option String := none
  players : Option (List String) := none
  error : Option String := none

/-- A pydantic `ValidationError`, reduced to which field failed and how. -/
inductive ValErr where
  | missingRequired (field : String)
  | wrongType (field : String)

/-- Rendering of a `ValidationError` into the cause string interpolated by
the handler (the exact pydantic wording is irrelevant to every claim). -/
def ValErr.render : ValErr → String
  | .missingRequired f => "1 validation error: " ++ f ++ ": Field required"
  | .wrongType f => "1 validation error: " ++ f ++ ": Input should be a valid type"

/-- ASCII lower-casing of a string (by characters). -/
def strLower (s : String) : String :=
  String.mk (s.toList.map Char.toLower)

/-- pydantic v2 lax-mode validation of a `bool` field from a string:
a fixed set of words is accepted case-insensitively
(`pydantic_core`'s `str_to_bool`). -/
def boolFromStr (s : String) : Option Bool :=
  match strLower s with
  | "true" | "t" | "yes" | "y" | "on" | "1" => some true
  | "false" | "f" | "no" | "n" | "off" | "0" => some false
  | _ => none

/-- pydantic v2 lax-mode validation of a `bool` field from a Python value:
booleans pass through, the ints `0`/`1` and bool-like strings are coerced,
everything else is a type error. -/
def validateBool : Json → Option Bool
  | .bool b => some b
  | .num 0 => some false
  | .num 1 => some true
  | .str s => boolFromStr s
  | _ => none

/-- pydantic v2 validation of an `Optional[str]` field with default `None`:
an absent key or an explicit `null` yields `None`, a string passes through,
anything else is a type error (lax mode does not coerce numbers to
strings). -/
def validateOptStr : Option Json → Option (Option String)
  | none => some none
  | some .null => some none
  | some (.str s) => some (some s)
  | some _ => none

/-- Element-wise validation of a `list[str]` payload. -/
def strListOf : List Json → Option (List String)
  | [] => some []
  | .str s :: rest => (strListOf rest).map (s :: ·)
  | _ => none

/-- pydantic v2 validation of an `Optional[list[str]]` field with default
`None`. -/
def validateOptStrList : Option Json → Option (Option (List String))
  | none => some none
  | some .null => some none
  | some (.arr elems) => (strListOf elems).map some
  | some _ => none

/-- Validation outcome of the required `is_reservation` field. -/
def fieldBool (fields : List (String × Json)) (name : String) : Except ValErr Bool :=
  match lookupJ fields name with
  | none => .error (.missingRequired name)
  | some v =>
    match validateBool v with
    | none => .error (.wrongType name)
    | some b => .ok b

/-- Validation outcome of an `Optional[str]` field. -/
def fieldOptStr (fields : List (String × Json)) (name : String) : Except ValErr (Option String) :=
  match validateOptStr (lookupJ fields name) with
  | none => .error (.wrongType name)
  | some v => .ok v

/-- Validation outcome of the `Optional[list[str]]` field. -/
def fieldOptStrList (fields : List (String × Json)) (name : String) :
    Except ValErr (Option (List String)) :=
  match validateOptStrList (lookupJ fields name) with
  | none => .error (.wrongType name)
  | some v => .ok v

/-- Embedding of `ReservationResponse(**result_dict)`: pydantic validation of the decoded
object.  Unknown extra keys are ignored (pydantic's default `extra="ignore"`
behaviour for unannotated models). -/
def ReservationResponse.validate (fields : List (String × Json)) :
    Except ValErr ReservationResponse :=
  match fieldBool fields "is_reservation" with
  | .error e => .error e
  | .ok is_reservation =>
  match fieldOptStr fields "date" with
  | .error e => .error e
  | .ok date =>
  match fieldOptStr fields "start_time" with
  | .error e => .error e
  | .ok start_time =>
  match fieldOptStr fields "end_time" with
  | .error e => .error e
  | .ok end_time =>
  match fieldOptStr fields "court" with
  | .error e => .error e
  | .ok court =>
  match fieldOptStr fields "organizer" with
  | .error e => .error e
  | .ok organizer =>
  match fieldOptStrList fields "players" with
  | .error e => .error e
  | .ok players =>
  match fieldOptStr fields "error" with
  | .error e => .error e
  | .ok error =>
  .ok ⟨is_reservation, date, start_time, end_time, court, organizer, players, error⟩

/-- Serialization of an optional string field by `model_dump_json` (absent
fields are emitted as `null`; `exclude_none` is not set). -/
def optStrJson : Option String → Json
  | none => .null
  | some s => .str s

/-- Serialization of the optional player list by `model_dump_json`. -/
def optStrListJson : Option (List String) → Json
  | none => .null
  | some l => .arr (l.map .str)

/-- Embedding of `reservation.model_dump_json()`: every field in declaration order,
absent optionals as `null`. -/
def ReservationResponse.dumpJson (r : ReservationResponse) : Json :=
  .obj [("is_reservation", .bool r.is_reservation),
        ("date", optStrJson r.date),
        ("start_time", optStrJson r.start_time),
        ("end_time", optStrJson r.end_time),
        ("court", optStrJson r.court),
        ("organizer", optStrJson r.organizer),
        ("players", optStrListJson r.players),
        ("error", optStrJson r.error)]

/-! ## The request handlers (function_app.py lines 49-188) -/

/-- The environment configuration read by both handlers.  `none` models an
absent variable; `os.environ` values are otherwise arbitrary strings
(possibly empty). -/
structure Env where
  endpoint : Option String
  apiKey : Option String
  deploymentName : Option String

/-- Python truthiness of `os.environ.get(...)`: absent or empty is falsy. -/
def optTruthy : Option String → Bool
  | none => false
  | some s => !s.isEmpty

/-- Reading `os.environ.get("AZURE_OPENAI_DEPLOYMENT_NAME", "gpt-4o-mini")`. -/
def Env.deployment (env : Env) : String :=
  env.deploymentName.getD "gpt-4o-mini"

/-- An HTTP response: status code plus the JSON value serialized into the
body (every branch of the source dumps a JSON value). -/
structure HttpResponse where
  status : Nat
  body : Json

/-- Outcome of one call to `parse_email`: either an `HttpResponse`, or an
exception that escapes the handler (raised outside both `try` blocks). -/
inductive ParseOutcome where
  | response (r : HttpResponse)
  | uncaught (e : PyErr)

/-- The abstracted Azure OpenAI interaction: `.error cause` is any exception
raised while building the client or creating the completion (caught by the
outer `except Exception`), `.ok d` is the outcome `d` of `json.loads` on the
reply text (`.error cause` a `json.JSONDecodeError`, `.ok j` the decoded
value). -/
def AiCall := Except String (Except String Json)

/-- The message of the `TypeError` raised by `ReservationResponse(**v)` when
`v` is not a mapping. -/
def starStarMsg (v : Json) : String :=
  "argument after ** must be a mapping, not " ++ v.pyType

/-- Lines 115-172 of `function_app.py`: call the model, `json.loads` the
reply, validate with pydantic.  `json.JSONDecodeError` and
`ValidationError` are caught by the inner `except` (line 155) and mapped to
HTTP 200 with an explanatory `error`; every other exception — including the
`TypeError` raised by `**result_dict` on a non-mapping — is caught by the
outer `except Exception` (line 166) and mapped to HTTP 500. -/
def modelStage (ai : AiCall) : ParseOutcome :=
  match ai with
  | .error cause =>
    .response ⟨500, .obj [("error", .str ("AI processing failed: " ++ cause))]⟩
  | .ok (.error cause) =>
    .response ⟨200, .obj [("is_reservation", .bool false),
                          ("error", .str ("Failed to parse AI response: " ++ cause))]⟩
  | .ok (.ok (.obj fields)) =>
    match ReservationResponse.validate fields with
    | .ok reservation => .response ⟨200, reservation.dumpJson⟩
    | .error e =>
      .response ⟨200, .obj [("is_reservation", .bool false),
                            ("error", .str ("Failed to parse AI response: " ++ e.render))]⟩
  | .ok (.ok v) =>
    .response ⟨500, .obj [("error", .str ("AI processing failed: " ++ starStarMsg v))]⟩

/-- The `parse_email` handler (lines 49-172).  `reqJson` is the outcome of
`req.get_json()` (`none` models the `ValueError` on a malformed body), `ai`
the abstracted model interaction. -/
def parse_email (env : Env) (reqJson : Option Json) (ai : AiCall) : ParseOutcome :=
  if !(optTruthy env.endpoint && optTruthy env.apiKey) then
    .response ⟨500, .obj [("error", .str "Azure OpenAI not configured")]⟩
  else
    match reqJson with
    | none => .response ⟨400, .obj [("error", .str "Invalid JSON in request body")]⟩
    | some (.obj fields) =>
      let email_text := (lookupJ fields "email_text").getD (.str "")
      let email_subject := (lookupJ fields "email_subject").getD (.str "")
      if !email_text.truthy then
        .response ⟨400, .obj [("error", .str "email_text is required")]⟩
      else
        match pyContains "Rally Club" email_text with
        | .error e => .uncaught e
        | .ok inText =>
          if !inText then
            match pyContains "Rally Club" email_subject with
            | .error e => .uncaught e
            | .ok inSubject =>
              if !inSubject then
                .response ⟨200, .obj [("is_reservation", .bool false)]⟩
              else
                modelStage ai
          else
            modelStage ai
    | some v =>
      .uncaught (.attributeError (v.pyType ++ " object has no attribute get"))

/-- The `health` handler (lines 175-188): always HTTP 200, reporting
`bool(endpoint and api_key)`. -/
def health (env : Env) : HttpResponse :=
  ⟨200, .obj [("status", .str "ok"),
              ("openai_configured", .bool (optTruthy env.endpoint && optTruthy env.apiKey))]⟩

/-! ## Shared helper definitions and lemmas -/

/-- A request body with string `email_text` and `email_subject` fields. -/
def reqOf (text subj : String) : Option Json :=
  some (.obj [("email_text", .str text), ("email_subject", .str subj)])

/-- A fully configured environment used to instantiate theorems. -/
def envA : Env := ⟨some "https://test.openai.azure.com", some "test-key", none⟩

/-- A string is non-empty as a Python value iff it differs from `""`. -/
theorem str_isEmpty_false_iff (s : String) : s.isEmpty = false ↔ s ≠ "" := by
  constructor
  · intro h hs
    rw [hs] at h
    exact absurd h (by decide)
  · intro h
    cases he : s.isEmpty
    · rfl
    · exact absurd ((String.isEmpty_iff s).1 he) h

/-- The empty string is falsy. -/
theorem truthy_str_empty : (Json.str "").truthy = false := rfl

theorem lookupJ_reqOf_text (text subj : String) :
    lookupJ [("email_text", Json.str text), ("email_subject", Json.str subj)] "email_text" =
      some (.str text) := rfl

theorem lookupJ_reqOf_subject (text subj : String) :
    lookupJ [("email_text", Json.str text), ("email_subject", Json.str subj)] "email_subject" =
      some (.str subj) := rfl

/-- With the configuration present and a non-empty string `email_text`, the
handler reaches the pre-filter, whose two `in` tests on strings decide
between answering immediately and the model stage. -/
theorem parse_email_at_prefilter (env : Env) (text subj : String) (ai : AiCall)
    (hc : (optTruthy env.endpoint && optTruthy env.apiKey) = true)
    (ht : text ≠ "") :
    parse_email env (reqOf text subj) ai =
      if strContains text "Rally Club" || strContains subj "Rally Club" then modelStage ai
      else .response ⟨200, .obj [("is_reservation", .bool false)]⟩ := by
  have hemp : text.isEmpty = false := by
    cases h : text.isEmpty
    · rfl
    · exact absurd ((String.isEmpty_iff text).1 h) ht
  have ht' : (Json.str text).truthy = true := by
    simp [Json.truthy, hemp]
  unfold parse_email reqOf
  rw [hc]
  simp only [Bool.not_true, Bool.false_eq_true, if_false, lookupJ_reqOf_text,
    lookupJ_reqOf_subject, Option.getD_some, ht', pyContains]
  cases hx : strContains text "Rally Club" <;>
    cases hy : strContains subj "Rally Club" <;>
      simp [hx, hy]

/-- Element-wise `list[str]` validation succeeds on a list of strings and
returns it unchanged. -/
theorem strListOf_map_str (ps : List String) : strListOf (ps.map Json.str) = some ps := by
  induction ps with
  | nil => rfl
  | cons p rest ih => simp [strListOf, ih]

/-! ## Claim theorems -/

/-- C4: with the configuration present and a non-empty `email_text` string,
the pre-filter lets the request proceed to the model iff the case-sensitive
substring "Rally Club" occurs in the body or the subject; when it occurs in
neither, the handler answers HTTP 200 `{"is_reservation": false}` and the
model adapter is never consulted (the outcome is identical for every model
oracle). -/
theorem prefilter_gates_model (env : Env) (text subj : String)
    (hc : (optTruthy env.endpoint && optTruthy env.apiKey) = true)
    (ht : text ≠ "") :
    ((strContains text "Rally Club" || strContains subj "Rally Club") = false →
      ∀ ai : AiCall, parse_email env (reqOf text subj) ai =
        .response ⟨200, .obj [("is_reservation", .bool false)]⟩)
    ∧ ((strContains text "Rally Club" || strContains subj "Rally Club") = true →
      ∀ ai : AiCall, parse_email env (reqOf text subj) ai = modelStage ai) := by
  constructor
  · intro h ai
    rw [parse_email_at_prefilter env text subj ai hc ht, h]
    simp
  · intro h ai
    rw [parse_email_at_prefilter env text subj ai hc ht, h]
    simp

/-- Witness for C4: a body and subject without the marker answer
`{"is_reservation": false}` at HTTP 200 whatever the oracle would say. -/
theorem prefilter_gates_model_witness :
    parse_email envA (reqOf "hello there" "greetings") (.error "boom") =
      .response ⟨200, .obj [("is_reservation", .bool false)]⟩ :=
  (prefilter_gates_model envA "hello there" "greetings" (by decide) (by decide)).1
    (by decide) (.error "boom")

/-- C5: a missing endpoint or credential yields HTTP 500 with the
single-`error`-field body, and the check precedes body parsing: the same
response comes for every request body, malformed or lacking `email_text`,
and for every model oracle. -/
theorem config_check_precedes_body_parse (env : Env) (req : Option Json) (ai : AiCall)
    (h : env.endpoint = none ∨ env.apiKey = none) :
    parse_email env req ai =
      .response ⟨500, .obj [("error", .str "Azure OpenAI not configured")]⟩ := by
  have hc : (optTruthy env.endpoint && optTruthy env.apiKey) = false := by
    rcases h with h | h <;> simp [h, optTruthy]
  unfold parse_email
  rw [hc]
  simp

/-- Witness for C5: absent endpoint together with a malformed body still
answers the configuration error at HTTP 500. -/
theorem config_check_precedes_body_parse_witness :
    parse_email ⟨none, some "test-key", none⟩ none (.error "x") =
      .response ⟨500, .obj [("error", .str "Azure OpenAI not configured")]⟩ :=
  config_check_precedes_body_parse ⟨none, some "test-key", none⟩ none (.error "x") (Or.inl rfl)

/-- C6: when the model's reply text fails JSON decoding, the handler returns
HTTP 200 with `is_reservation: false` and a `Failed to parse AI response`
error, not a 5xx status. -/
theorem model_decode_failure_nonfatal (env : Env) (text subj cause : String)
    (hc : (optTruthy env.endpoint && optTruthy env.apiKey) = true)
    (ht : text ≠ "")
    (hm : (strContains text "Rally Club" || strContains subj "Rally Club") = true) :
    parse_email env (reqOf text subj) (.ok (.error cause)) =
      .response ⟨200, .obj [("is_reservation", .bool false),
        ("error", .str ("Failed to parse AI response: " ++ cause))]⟩ := by
  rw [parse_email_at_prefilter env text subj _ hc ht, hm]
  simp [modelStage]

/-- Witness for C6: the decode failure on the literal reply
`not valid json` is non-fatal. -/
theorem model_decode_failure_nonfatal_witness :
    parse_email envA (reqOf "Rally Club news" "s")
        (.ok (.error "Expecting value: line 1 column 1 (char 0)")) =
      .response ⟨200, .obj [("is_reservation", .bool false),
        ("error", .str "Failed to parse AI response: Expecting value: line 1 column 1 (char 0)")]⟩ :=
  model_decode_failure_nonfatal envA "Rally Club news" "s"
    "Expecting value: line 1 column 1 (char 0)" (by decide) (by decide) (by decide)

/-- C7: a well-formed JSON object body whose `email_text` is absent or the
empty string gets exactly HTTP 400 `{"error": "email_text is required"}`,
for every model oracle (neither the pre-filter nor the model is reached). -/
theorem field_check_rejects_missing_email_text (env : Env)
    (fields : List (String × Json)) (ai : AiCall)
    (hc : (optTruthy env.endpoint && optTruthy env.apiKey) = true)
    (h : lookupJ fields "email_text" = none ∨ lookupJ fields "email_text" = some (.str "")) :
    parse_email env (some (.obj fields)) ai =
      .response ⟨400, .obj [("error", .str "email_text is required")]⟩ := by
  have hval : (lookupJ fields "email_text").getD (Json.str "") = Json.str "" := by
    rcases h with h | h <;> simp [h]
  unfold parse_email
  rw [hc]
  simp [hval, truthy_str_empty]

/-- Witness for C7: the scenario subject `"Test"`, body absent → HTTP 400. -/
theorem field_check_rejects_missing_email_text_witness :
    parse_email envA (some (.obj [("email_subject", .str "Test")])) (.error "x") =
      .response ⟨400, .obj [("error", .str "email_text is required")]⟩ :=
  field_check_rejects_missing_email_text envA [("email_subject", .str "Test")] (.error "x")
    (by decide) (Or.inl rfl)

/-- C9: `health` always answers HTTP 200 with `status: "ok"` and
`openai_configured` true exactly when both configuration values are present
and non-empty. -/
theorem health_reports_configuration (env : Env) :
    health env = ⟨200, .obj [("status", .str "ok"),
        ("openai_configured", .bool (optTruthy env.endpoint && optTruthy env.apiKey))]⟩
    ∧ ((optTruthy env.endpoint && optTruthy env.apiKey) = true ↔
        (∃ e, env.endpoint = some e ∧ e ≠ "") ∧ (∃ k, env.apiKey = some k ∧ k ≠ "")) := by
  refine ⟨rfl, ?_⟩
  cases he : env.endpoint <;> cases hk : env.apiKey <;>
    simp [optTruthy, str_isEmpty_false_iff]

/-- Witness for C9: both values set gives `openai_configured: true`. -/
theorem health_reports_configuration_witness :
    health envA = ⟨200, .obj [("status", .str "ok"), ("openai_configured", .bool true)]⟩ :=
  (health_reports_configuration envA).1

/-- C10: FieldCheck is a truthiness test, not a type test: the body
`{"email_text": 5}` passes it (`5` is truthy) and the handler then raises an
uncaught `TypeError` at the pre-filter's `in` test, whatever the model
oracle — so totality needs the precondition that the fields are strings. -/
theorem truthy_nonstring_email_text_raises (ai : AiCall) :
    (Json.num 5).truthy = true ∧
    parse_email envA (some (.obj [("email_text", .num 5)])) ai =
      .uncaught (.typeError "argument of type int is not iterable") :=
  ⟨rfl, rfl⟩

/-- Witness for C10 at a concrete oracle. -/
theorem truthy_nonstring_email_text_raises_witness :
    (Json.num 5).truthy = true ∧
    parse_email envA (some (.obj [("email_text", .num 5)])) (.error "x") =
      .uncaught (.typeError "argument of type int is not iterable") :=
  truthy_nonstring_email_text_raises (.error "x")

/-- The fully-populated reply object quantified over by the round-trip
claim. -/
def fullReservationObj (b : Bool) (d st et c o : String) (ps : List String) :
    List (String × Json) :=
  [("is_reservation", .bool b), ("date", .str d), ("start_time", .str st),
   ("end_time", .str et), ("court", .str c), ("organizer", .str o),
   ("players", .arr (ps.map .str))]

/-- C8: validating a fully-populated object of the declared types succeeds
with exactly those field values, and serializing the record reproduces
every one of them, players in the original order (`error` serialized as
`null`, never invented). -/
theorem reservation_roundtrip (b : Bool) (d st et c o : String) (ps : List String) :
    ReservationResponse.validate (fullReservationObj b d st et c o ps) =
      .ok ⟨b, some d, some st, some et, some c, some o, some ps, none⟩
    ∧ ReservationResponse.dumpJson ⟨b, some d, some st, some et, some c, some o, some ps, none⟩ =
      .obj [("is_reservation", .bool b), ("date", .str d), ("start_time", .str st),
            ("end_time", .str et), ("court", .str c), ("organizer", .str o),
            ("players", .arr (ps.map .str)), ("error", .null)] := by
  refine ⟨?_, rfl⟩
  have h1 : fieldBool (fullReservationObj b d st et c o ps) "is_reservation" = .ok b := rfl
  have h2 : fieldOptStr (fullReservationObj b d st et c o ps) "date" = .ok (some d) := rfl
  have h3 : fieldOptStr (fullReservationObj b d st et c o ps) "start_time" = .ok (some st) := rfl
  have h4 : fieldOptStr (fullReservationObj b d st et c o ps) "end_time" = .ok (some et) := rfl
  have h5 : fieldOptStr (fullReservationObj b d st et c o ps) "court" = .ok (some c) := rfl
  have h6 : fieldOptStr (fullReservationObj b d st et c o ps) "organizer" = .ok (some o) := rfl
  have hp : lookupJ (fullReservationObj b d st et c o ps) "players" =
      some (.arr (ps.map .str)) := rfl
  have h7 : fieldOptStrList (fullReservationObj b d st et c o ps) "players" = .ok (some ps) := by
    simp [fieldOptStrList, hp, validateOptStrList, strListOf_map_str]
  have h8 : fieldOptStr (fullReservationObj b d st et c o ps) "error" = .ok none := rfl
  simp [ReservationResponse.validate, h1, h2, h3, h4, h5, h6, h7, h8]

/-- Witness for C8 at a concrete reservation. -/
theorem reservation_roundtrip_witness :
    ReservationResponse.validate
        (fullReservationObj true "2024-12-23" "1:30pm" "3:30pm" "North" "John Smith"
          ["John Smith", "Jane Doe"]) =
      .ok ⟨true, some "2024-12-23", some "1:30pm", some "3:30pm", some "North",
        some "John Smith", some ["John Smith", "Jane Doe"], none⟩ :=
  (reservation_roundtrip true "2024-12-23" "1:30pm" "3:30pm" "North" "John Smith"
    ["John Smith", "Jane Doe"]).1

/-- C3 counterexample: pydantic lax mode silently coerces the string
`"true"` and the number `1` to the boolean `true` instead of rejecting
them, so validation of `{"is_reservation": "true"}` succeeds. -/
theorem is_reservation_coercion_counterexample :
    ReservationResponse.validate [("is_reservation", .str "true")] =
      .ok ⟨true, none, none, none, none, none, none, none⟩
    ∧ ReservationResponse.validate [("is_reservation", .num 1)] =
      .ok ⟨true, none, none, none, none, none, none, none⟩ :=
  ⟨rfl, rfl⟩

/-- C3 (amended): a missing `is_reservation` key always fails validation,
and a present value fails exactly when it is outside pydantic's lax bool
coercion domain — but bool-like strings such as `"true"` and the numbers
`0`/`1` are silently coerced rather than rejected. -/
theorem is_reservation_validation (fields : List (String × Json)) :
    (lookupJ fields "is_reservation" = none →
      ReservationResponse.validate fields = .error (.missingRequired "is_reservation"))
    ∧ (∀ v, lookupJ fields "is_reservation" = some v → validateBool v = none →
      ReservationResponse.validate fields = .error (.wrongType "is_reservation"))
    ∧ validateBool (.str "true") = some true
    ∧ validateBool (.num 1) = some true := by
  refine ⟨?_, ?_, rfl, rfl⟩
  · intro h
    simp [ReservationResponse.validate, fieldBool, h]
  · intro v hv hb
    simp [ReservationResponse.validate, fieldBool, hv, hb]

/-- Witness for C3: an object without the `is_reservation` key is
rejected. -/
theorem is_reservation_validation_witness :
    ReservationResponse.validate [("date", .str "2024-12-23")] =
      .error (.missingRequired "is_reservation") :=
  (is_reservation_validation [("date", .str "2024-12-23")]).1 rfl

/-- C2 counterexample: a model reply that itself carries an `error` string
passes schema validation, and the success path then returns that non-null
`error` at HTTP 200. -/
theorem success_path_error_counterexample :
    ReservationResponse.validate [("is_reservation", .bool false), ("error", .str "oops")] =
      .ok ⟨false, none, none, none, none, none, none, some "oops"⟩
    ∧ parse_email envA (reqOf "Rally Club" "s")
        (.ok (.ok (.obj [("is_reservation", .bool false), ("error", .str "oops")]))) =
      .response ⟨200, .obj [("is_reservation", .bool false), ("date", .null),
        ("start_time", .null), ("end_time", .null), ("court", .null),
        ("organizer", .null), ("players", .null), ("error", .str "oops")]⟩ :=
  ⟨rfl, rfl⟩

/-- C2 (amended): on the success path the body is exactly the validated
record serialized, so its `error` field is whatever the model's validated
reply carried; it is null whenever the reply object has no `error` key —
the handler itself populates `error` only on validation-failure paths. -/
theorem success_path_error_from_reply (env : Env) (text subj : String)
    (fields : List (String × Json)) (r : ReservationResponse)
    (hc : (optTruthy env.endpoint && optTruthy env.apiKey) = true)
    (ht : text ≠ "")
    (hm : (strContains text "Rally Club" || strContains subj "Rally Club") = true)
    (hv : ReservationResponse.validate fields = .ok r) :
    parse_email env (reqOf text subj) (.ok (.ok (.obj fields))) =
      .response ⟨200, r.dumpJson⟩
    ∧ (lookupJ fields "error" = none → r.error = none) := by
  constructor
  · rw [parse_email_at_prefilter env text subj _ hc ht, hm]
    simp [modelStage, hv]
  · intro he
    have he' : fieldOptStr fields "error" = .ok none := by
      simp [fieldOptStr, he, validateOptStr]
    unfold ReservationResponse.validate at hv
    cases h1 : fieldBool fields "is_reservation" with
    | error e => rw [h1] at hv; exact Except.noConfusion hv
    | ok f1 =>
      rw [h1] at hv
      cases h2 : fieldOptStr fields "date" with
      | error e => rw [h2] at hv; exact Except.noConfusion hv
      | ok f2 =>
        rw [h2] at hv
        cases h3 : fieldOptStr fields "start_time" with
        | error e => rw [h3] at hv; exact Except.noConfusion hv
        | ok f3 =>
          rw [h3] at hv
          cases h4 : fieldOptStr fields "end_time" with
          | error e => rw [h4] at hv; exact Except.noConfusion hv
          | ok f4 =>
            rw [h4] at hv
            cases h5 : fieldOptStr fields "court" with
            | error e => rw [h5] at hv; exact Except.noConfusion hv
            | ok f5 =>
              rw [h5] at hv
              cases h6 : fieldOptStr fields "organizer" with
              | error e => rw [h6] at hv; exact Except.noConfusion hv
              | ok f6 =>
                rw [h6] at hv
                cases h7 : fieldOptStrList fields "players" with
                | error e => rw [h7] at hv; exact Except.noConfusion hv
                | ok f7 =>
                  rw [h7, he'] at hv
                  have hv' : (⟨f1, f2, f3, f4, f5, f6, f7, none⟩ : ReservationResponse) = r :=
                    Except.ok.inj hv
                  subst hv'
                  rfl

/-- Witness for C2: an error-free valid reply serializes with a null
`error` field. -/
theorem success_path_error_from_reply_witness :
    parse_email envA (reqOf "Rally Club today" "s")
        (.ok (.ok (.obj [("is_reservation", .bool true)]))) =
      .response ⟨200,
        ReservationResponse.dumpJson ⟨true, none, none, none, none, none, none, none⟩⟩ :=
  (success_path_error_from_reply envA "Rally Club today" "s" [("is_reservation", .bool true)]
    ⟨true, none, none, none, none, none, none, none⟩ (by decide) (by decide) (by decide) rfl).1

/-- C1 counterexample: the JSON-array reply `[]` (valid JSON, not an
object) yields HTTP 500 with an `AI processing failed` body — not the
claimed HTTP 200 `Failed to parse AI response` body. -/
theorem nonobject_reply_counterexample :
    parse_email envA (reqOf "Rally Club" "x") (.ok (.ok (.arr []))) =
      .response ⟨500, .obj [("error",
        .str "AI processing failed: argument after ** must be a mapping, not list")]⟩ :=
  rfl

/-- C1 (amended): a model reply decoding to a valid JSON value that is not
an object makes `ReservationResponse(**...)` raise a `TypeError`, which the
inner `except (JSONDecodeError, ValidationError)` does not catch; the outer
handler answers HTTP 500 `{"error": "AI processing failed: <cause>"}`, not
HTTP 200. -/
theorem nonobject_reply_is_processing_failure (env : Env) (text subj : String) (v : Json)
    (hc : (optTruthy env.endpoint && optTruthy env.apiKey) = true)
    (ht : text ≠ "")
    (hm : (strContains text "Rally Club" || strContains subj "Rally Club") = true)
    (hv : ∀ fields, v ≠ .obj fields) :
    parse_email env (reqOf text subj) (.ok (.ok v)) =
      .response ⟨500, .obj [("error", .str ("AI processing failed: " ++ starStarMsg v))]⟩ := by
  rw [parse_email_at_prefilter env text subj _ hc ht, hm]
  cases v with
  | obj fields => exact absurd rfl (hv fields)
  | null => rfl
  | bool b => rfl
  | num n => rfl
  | str s => rfl
  | arr elems => rfl

/-- Witness for C1: a bare number reply is a 500 processing failure. -/
theorem nonobject_reply_is_processing_failure_witness :
    parse_email envA (reqOf "Rally Club" "") (.ok (.ok (.num 7))) =
      .response ⟨500, .obj [("error",
        .str "AI processing failed: argument after ** must be a mapping, not int")]⟩ :=
  nonobject_reply_is_processing_failure envA "Rally Club" "" (.num 7) (by decide) (by decide)
    (by decide) (fun _ h => Json.noConfusion h)

end EmailParser
